import Mathlib

set_option linter.unusedVariables false
set_option maxRecDepth 4000

/-!
Verification of the tetrahedral-mesh ray-traversal core of `tetgen_stb.h`
(point-in-tetrahedron predicate, point locator, exit-face resolver,
bounding box, and the two traversal loops `traverse_ray` /
`traverse_until_point`).

Floats are modelled exactly as rationals; machine float rounding plays no
role in the control-flow properties established here.  Array accesses
(raw C pointer indexing) are modelled as fallible reads returning
`Option`: a `none` marks an out-of-range access, which in the C source is
undefined behaviour.
-/

namespace TetMesh

/-- The 4-component vector type `float4` of the source (components modelled
as exact rationals). -/
structure float4 where
  x : ℚ
  y : ℚ
  z : ℚ
  w : ℚ
deriving DecidableEq, Repr

/-- Constructor `make_float4` from the source. -/
def make_float4 (x y z w : ℚ) : float4 := ⟨x, y, z, w⟩

/-- Componentwise subtraction `operator-` on `float4` (w is set to 0, as in
the source's `make_float4(a.x - b.x, a.y - b.y, a.z - b.z, 0)`). -/
def fsub (a b : float4) : float4 := make_float4 (a.x - b.x) (a.y - b.y) (a.z - b.z) 0

/-- Function `Dot`: 3-component dot product (ignores `w`), as in the source. -/
def Dot (a b : float4) : ℚ := a.x * b.x + a.y * b.y + a.z * b.z

/-- Function `Cross`: 3-component cross product, `w = 0`, as in the source. -/
def Cross (a b : float4) : float4 :=
  make_float4 (a.y * b.z - a.z * b.y) (a.z * b.x - a.x * b.z) (a.x * b.y - a.y * b.x) 0

/-- Function `ScTP`: scalar triple product `Dot(a, Cross(b, c))`. -/
def ScTP (a b c : float4) : ℚ := Dot a (Cross b c)

/-- Function `signf`: returns 1 for positive, -1 for negative, 0 otherwise. -/
def signf (f : ℚ) : Int := if f > 0 then 1 else if f < 0 then -1 else 0

/-- Predicate `SameSide(v1,v2,v3,v4,p)`: sign of `Dot(normal, v4-v1)` equals sign of
`Dot(normal, p-v1)` where `normal = Cross(v2-v1, v3-v1)`. -/
def SameSide (v1 v2 v3 v4 p : float4) : Bool :=
  let normal := Cross (fsub v2 v1) (fsub v3 v1)
  let dotV4 := Dot normal (fsub v4 v1)
  let dotP := Dot normal (fsub p v1)
  signf dotV4 == signf dotP

/-- Predicate `IsPointInTetrahedron`: conjunction of the four `SameSide` tests. -/
def IsPointInTetrahedron (v1 v2 v3 v4 p : float4) : Bool :=
  SameSide v1 v2 v3 v4 p &&
  SameSide v2 v3 v4 v1 p &&
  SameSide v3 v4 v1 v2 p &&
  SameSide v4 v1 v2 v3 p

/-- The `rayhit` result record of the source, with its C++ member
initializers as Lean default values. -/
structure rayhit where
  pos : float4
  tet : Int := 0
  face : Int := 0
  depth : Int := 0
  wall : Bool := false
  constrained : Bool := false
  dark : Bool := false
deriving DecidableEq, Repr

/-- The `BBox` record of the source. -/
structure BBox where
  min : float4
  max : float4
deriving DecidableEq, Repr

/-- Constant `inf` (1e20) of the source. -/
def inf : ℚ := 100000000000000000000

/-- Modelled from the spec: the `mesh2` structure consumed by
`GetTetrahedraFromPoint`, `init_BBox`, `traverse_ray` and
`traverse_until_point`.  Its definition is not part of `src/tetgen_stb.h`
(only its field accesses appear there); per spec section 3 the mesh is a
set of flat, index-addressed collections: node coordinates, per-tetrahedron
node/face/neighbor index quadruples, and per-face classification flags,
with counts as authoritative sizes. -/
structure mesh2 where
  tetnum : Nat
  nodenum : Nat
  facenum : Nat
  n_x : List ℚ
  n_y : List ℚ
  n_z : List ℚ
  t_nindex1 : List Int
  t_nindex2 : List Int
  t_nindex3 : List Int
  t_nindex4 : List Int
  t_findex1 : List Int
  t_findex2 : List Int
  t_findex3 : List Int
  t_findex4 : List Int
  t_adjtet1 : List Int
  t_adjtet2 : List Int
  t_adjtet3 : List Int
  t_adjtet4 : List Int
  f_node_a : List Int
  f_node_b : List Int
  f_node_c : List Int
  face_is_wall : List Bool
  face_is_constrained : List Bool
deriving DecidableEq, Repr

/-- Array read `l[i]` with a C `int32_t` index: defined exactly when
`0 ≤ i < length`; a `none` models an out-of-range (undefined-behaviour)
access. -/
def readArr {α : Type} (l : List α) (i : Int) : Option α :=
  if h : 0 ≤ i ∧ i.toNat < l.length then some (l.get ⟨i.toNat, h.2⟩) else none

/-- The node-position gather `make_float4(mesh->n_x[nindex[t]], mesh->n_y[...],
mesh->n_z[...], 0)` used by the locator and both traversal loops. -/
def getTetNode (mesh : mesh2) (nindex : List Int) (t : Int) : Option float4 := do
  let j ← readArr nindex t
  let x ← readArr mesh.n_x j
  let y ← readArr mesh.n_y j
  let z ← readArr mesh.n_z j
  some (make_float4 x y z 0)

/-- The six scalar-triple-product signs `(sQAB, sQBC, sQAC, sQAD, sQBD, sQCD)`
computed by `GetExitTet` from the ray and the four (translated) vertices. -/
def exitSigns (ray_o ray_d n0 n1 n2 n3 : float4) : Int × Int × Int × Int × Int × Int :=
  let q := ray_d
  let v0 := make_float4 n0.x n0.y n0.z 0
  let v1 := make_float4 n1.x n1.y n1.z 0
  let v2 := make_float4 n2.x n2.y n2.z 0
  let v3 := make_float4 n3.x n3.y n3.z 0
  let p0 := fsub v0 ray_o
  let p1 := fsub v1 ray_o
  let p2 := fsub v2 ray_o
  let p3 := fsub v3 ray_o
  (signf (ScTP q p0 p1), signf (ScTP q p1 p2), signf (ScTP q p0 p2),
   signf (ScTP q p0 p3), signf (ScTP q p1 p3), signf (ScTP q p2 p3))

/-- Face ABC exit test of `GetExitTet`: outer nonzero guard
`sQAB != 0 && sQAC != 0 && sQBC != 0` and inner sign pattern
`sQAB < 0 && sQAC > 0 && sQBC < 0`. -/
def condABC (sQAB sQBC sQAC sQAD sQBD sQCD : Int) : Bool :=
  (sQAB != 0 && sQAC != 0 && sQBC != 0) &&
  (decide (sQAB < 0) && decide (sQAC > 0) && decide (sQBC < 0))

/-- Face BAD exit test of `GetExitTet`. -/
def condBAD (sQAB sQBC sQAC sQAD sQBD sQCD : Int) : Bool :=
  (sQAB != 0 && sQAD != 0 && sQBD != 0) &&
  (decide (sQAB > 0) && decide (sQAD < 0) && decide (sQBD > 0))

/-- Face CDA exit test of `GetExitTet`. -/
def condCDA (sQAB sQBC sQAC sQAD sQBD sQCD : Int) : Bool :=
  (sQAD != 0 && sQAC != 0 && sQCD != 0) &&
  (decide (sQAD > 0) && decide (sQAC < 0) && decide (sQCD < 0))

/-- Face DCB exit test of `GetExitTet`. -/
def condDCB (sQAB sQBC sQAC sQAD sQBD sQCD : Int) : Bool :=
  (sQBC != 0 && sQBD != 0 && sQCD != 0) &&
  (decide (sQBC > 0) && decide (sQBD < 0) && decide (sQCD > 0))

/-- Resolver `GetExitTet`: initializes the outputs to `(face, tet) = (0, 0)`, then the
four chained face conditions each overwrite them with the matching face
slot's `(findex, adjtet)` pair (ABC uses slot 3, BAD slot 2, CDA slot 1,
DCB slot 0).  The `lface` parameter is accepted and unused, as in the
source. -/
def GetExitTet (ray_o ray_d n0 n1 n2 n3 : float4)
    (f0 f1 f2 f3 a0 a1 a2 a3 : Int) (lface : Int) : Int × Int :=
  let s := exitSigns ray_o ray_d n0 n1 n2 n3
  let sQAB := s.1
  let sQBC := s.2.1
  let sQAC := s.2.2.1
  let sQAD := s.2.2.2.1
  let sQBD := s.2.2.2.2.1
  let sQCD := s.2.2.2.2.2
  let ft : Int × Int := (0, 0)
  let ft := if condABC sQAB sQBC sQAC sQAD sQBD sQCD then (f3, a3) else ft
  let ft := if condBAD sQAB sQBC sQAC sQAD sQBD sQCD then (f2, a2) else ft
  let ft := if condCDA sQAB sQBC sQAC sQAD sQBD sQCD then (f1, a1) else ft
  let ft := if condDCB sQAB sQBC sQAC sQAD sQBD sQCD then (f0, a0) else ft
  ft

/-- No face sign-pattern matches: all four exit conditions of `GetExitTet`
are false on the computed signs. -/
def noFaceMatch (ray_o ray_d n0 n1 n2 n3 : float4) : Bool :=
  let s := exitSigns ray_o ray_d n0 n1 n2 n3
  !condABC s.1 s.2.1 s.2.2.1 s.2.2.2.1 s.2.2.2.2.1 s.2.2.2.2.2 &&
  !condBAD s.1 s.2.1 s.2.2.1 s.2.2.2.1 s.2.2.2.2.1 s.2.2.2.2.2 &&
  !condCDA s.1 s.2.1 s.2.2.1 s.2.2.2.1 s.2.2.2.2.1 s.2.2.2.2.2 &&
  !condDCB s.1 s.2.1 s.2.2.1 s.2.2.2.1 s.2.2.2.2.1 s.2.2.2.2.2

/-- The out-of-mesh stop test of the traversal loops:
`nexttet == -1 || nextface == -1`. -/
def stopsOutOfMesh (nexttet nextface : Int) : Bool :=
  nexttet == -1 || nextface == -1

/-- Local state of one traversal invocation: the loop variables
`current_tet`, `nexttet`, `nextface`, `lastface`, `hitfound` of
`traverse_ray` / `traverse_until_point`, plus the `rayhit` record `d`
being filled in.  `nexttet`/`nextface` are uninitialized in the source
and are first written by `GetExitTet` on the first iteration, which always
executes; their initial values here are never observable. -/
structure travState where
  current_tet : Int
  nexttet : Int
  nextface : Int
  lastface : Int
  hitfound : Bool
  d : rayhit
deriving DecidableEq, Repr

/-- The pure state update of one `traverse_ray` iteration after the exit
face has been resolved and the two face flags have been read: the three
chained (non-exclusive) `if` statements, followed by
`lastface = nextface; current_tet = nexttet`. -/
def stepUpdate (st : travState) (cflag wflag : Bool) (nextface nexttet : Int) : travState :=
  let st1 := if cflag then
    { st with d := { st.d with constrained := true, face := nextface, tet := st.current_tet },
              hitfound := true } else st
  let st2 := if wflag then
    { st1 with d := { st1.d with wall := true, face := nextface, tet := st1.current_tet },
               hitfound := true } else st1
  let st3 := if stopsOutOfMesh nexttet nextface then
    { st2 with d := { st2.d with wall := true, face := nextface, tet := st2.current_tet },
               hitfound := true } else st2
  { st3 with lastface := nextface, current_tet := nexttet,
             nexttet := nexttet, nextface := nextface }

/-- As `stepUpdate`, with the extra target-containment test of
`traverse_until_point` executed first (it sets `hitfound` and records
face/tet but no flag; the three subsequent `if`s still run). -/
def stepUpdatePoint (st : travState) (inTet cflag wflag : Bool)
    (nextface nexttet : Int) : travState :=
  let st0 := if inTet then
    { st with hitfound := true,
              d := { st.d with face := nextface, tet := st.current_tet } } else st
  stepUpdate st0 cflag wflag nextface nexttet

/-- One iteration of the `traverse_ray` loop body: when `hitfound` the body
is skipped; otherwise gather the current tetrahedron's face indices,
neighbor indices and vertex positions, call `GetExitTet`, read the two
classification flags of the resolved face, and apply the chained stop
tests. -/
def traverse_body (mesh : mesh2) (rayo rayd : float4) (st : travState) : Option travState :=
  if st.hitfound then some st else do
    let f0 ← readArr mesh.t_findex1 st.current_tet
    let f1 ← readArr mesh.t_findex2 st.current_tet
    let f2 ← readArr mesh.t_findex3 st.current_tet
    let f3 ← readArr mesh.t_findex4 st.current_tet
    let a0 ← readArr mesh.t_adjtet1 st.current_tet
    let a1 ← readArr mesh.t_adjtet2 st.current_tet
    let a2 ← readArr mesh.t_adjtet3 st.current_tet
    let a3 ← readArr mesh.t_adjtet4 st.current_tet
    let n0 ← getTetNode mesh mesh.t_nindex1 st.current_tet
    let n1 ← getTetNode mesh mesh.t_nindex2 st.current_tet
    let n2 ← getTetNode mesh mesh.t_nindex3 st.current_tet
    let n3 ← getTetNode mesh mesh.t_nindex4 st.current_tet
    let ft := GetExitTet rayo rayd n0 n1 n2 n3 f0 f1 f2 f3 a0 a1 a2 a3 st.lastface
    let cflag ← readArr mesh.face_is_constrained ft.1
    let wflag ← readArr mesh.face_is_wall ft.1
    some (stepUpdate st cflag wflag ft.1 ft.2)

/-- One iteration of the `traverse_until_point` loop body: as
`traverse_body` with the target-containment test on the current
tetrahedron's vertices inserted before the three stop tests. -/
def traverse_point_body (mesh : mesh2) (rayo rayd endP : float4)
    (st : travState) : Option travState :=
  if st.hitfound then some st else do
    let f0 ← readArr mesh.t_findex1 st.current_tet
    let f1 ← readArr mesh.t_findex2 st.current_tet
    let f2 ← readArr mesh.t_findex3 st.current_tet
    let f3 ← readArr mesh.t_findex4 st.current_tet
    let a0 ← readArr mesh.t_adjtet1 st.current_tet
    let a1 ← readArr mesh.t_adjtet2 st.current_tet
    let a2 ← readArr mesh.t_adjtet3 st.current_tet
    let a3 ← readArr mesh.t_adjtet4 st.current_tet
    let n0 ← getTetNode mesh mesh.t_nindex1 st.current_tet
    let n1 ← getTetNode mesh mesh.t_nindex2 st.current_tet
    let n2 ← getTetNode mesh mesh.t_nindex3 st.current_tet
    let n3 ← getTetNode mesh mesh.t_nindex4 st.current_tet
    let ft := GetExitTet rayo rayd n0 n1 n2 n3 f0 f1 f2 f3 a0 a1 a2 a3 st.lastface
    let cflag ← readArr mesh.face_is_constrained ft.1
    let wflag ← readArr mesh.face_is_wall ft.1
    some (stepUpdatePoint st (IsPointInTetrahedron n0 n1 n2 n3 endP) cflag wflag ft.1 ft.2)

/-- The `for (d.depth = 0; d.depth < 80; d.depth++)` loop of `traverse_ray`:
`fuel` counts the remaining iterations; `d.depth` is incremented after
every body execution (also when the body was skipped because `hitfound`
is set). -/
def traverse_loop (mesh : mesh2) (rayo rayd : float4) : Nat → travState → Option travState
  | 0, st => some st
  | n + 1, st =>
      (traverse_body mesh rayo rayd st).bind fun st1 =>
        traverse_loop mesh rayo rayd n
          { st1 with d := { st1.d with depth := st1.d.depth + 1 } }

/-- The corresponding loop of `traverse_until_point`. -/
def traverse_point_loop (mesh : mesh2) (rayo rayd endP : float4) :
    Nat → travState → Option travState
  | 0, st => some st
  | n + 1, st =>
      (traverse_point_body mesh rayo rayd endP st).bind fun st1 =>
        traverse_point_loop mesh rayo rayd endP n
          { st1 with d := { st1.d with depth := st1.d.depth + 1 } }

/-- Traversal `traverse_ray(mesh, rayo, rayd, start, d)`: run the 80-iteration loop
from `current_tet = start`, `lastface = 0`, `hitfound = false`; afterwards,
if no hit was found, set `dark = true` and record the last resolved face
and tetrahedron.  A `none` marks an out-of-range array access (undefined
behaviour in the source). -/
def traverse_ray (mesh : mesh2) (rayo rayd : float4) (start : Int) : Option rayhit :=
  let st0 : travState :=
    { current_tet := start, nexttet := 0, nextface := 0, lastface := 0, hitfound := false,
      d := { pos := make_float4 0 0 0 0 } }
  (traverse_loop mesh rayo rayd 80 st0).bind fun st =>
    if st.hitfound then some st.d
    else some { st.d with dark := true, face := st.nextface, tet := st.current_tet }

/-- Traversal `traverse_until_point(mesh, rayo, rayd, start, end, d)`: as
`traverse_ray` with the target-containment test added to each iteration. -/
def traverse_until_point (mesh : mesh2) (rayo rayd : float4) (start : Int)
    (endP : float4) : Option rayhit :=
  let st0 : travState :=
    { current_tet := start, nexttet := 0, nextface := 0, lastface := 0, hitfound := false,
      d := { pos := make_float4 0 0 0 0 } }
  (traverse_point_loop mesh rayo rayd endP 80 st0).bind fun st =>
    if st.hitfound then some st.d
    else some { st.d with dark := true, face := st.nextface, tet := st.current_tet }

/-- The scan loop of `GetTetrahedraFromPoint`: `fuel` is the number of
remaining indices, `i` the current index.  The inner `Option Int` is the
function's result: `some i` models an executed `return i`; `none` models
the loop completing with no `return` executed — the source function has no
return statement after the loop, so control falls off the end of a
non-void function (undefined value in C++).  The outer `Option` marks an
out-of-range array read. -/
def locate_loop (mesh : mesh2) (p : float4) : Nat → Int → Option (Option Int)
  | 0, _ => some none
  | n + 1, i => do
      let v1 ← getTetNode mesh mesh.t_nindex1 i
      let v2 ← getTetNode mesh mesh.t_nindex2 i
      let v3 ← getTetNode mesh mesh.t_nindex3 i
      let v4 ← getTetNode mesh mesh.t_nindex4 i
      if IsPointInTetrahedron v1 v2 v3 v4 p then some (some i)
      else locate_loop mesh p n (i + 1)

/-- Locator `GetTetrahedraFromPoint(mesh, p)`: linear scan over `[0, tetnum)`
returning the first tetrahedron containing `p`; see `locate_loop` for the
encoding of the missing return after the loop. -/
def GetTetrahedraFromPoint (mesh : mesh2) (p : float4) : Option (Option Int) :=
  locate_loop mesh p mesh.tetnum 0

/-- The body of the `init_BBox` loop for one node index `i`, exactly as in
the source: `min` components are overwritten whenever they are *less* than
the node coordinate, `max` components whenever they are *greater*. -/
def bbox_step (mesh : mesh2) (i : Int) (bb : BBox) : Option BBox := do
  let x ← readArr mesh.n_x i
  let y ← readArr mesh.n_y i
  let z ← readArr mesh.n_z i
  let bb := if bb.min.x < x then { bb with min := { bb.min with x := x } } else bb
  let bb := if bb.max.x > x then { bb with max := { bb.max with x := x } } else bb
  let bb := if bb.min.y < y then { bb with min := { bb.min with y := y } } else bb
  let bb := if bb.max.y > y then { bb with max := { bb.max with y := y } } else bb
  let bb := if bb.min.z < z then { bb with min := { bb.min with z := z } } else bb
  let bb := if bb.max.z > z then { bb with max := { bb.max with z := z } } else bb
  some bb

/-- The `for (i = 0; i < nodenum; i++)` loop of `init_BBox`. -/
def bbox_loop (mesh : mesh2) : Nat → Int → BBox → Option BBox
  | 0, _, bb => some bb
  | n + 1, i, bb => (bbox_step mesh i bb).bind (bbox_loop mesh n (i + 1))

/-- Function `init_BBox(mesh)`: seeds `min` with `(-inf,-inf,-inf,0)` and `max` with
`(inf,inf,inf,0)` and runs the update loop over all nodes. -/
def init_BBox (mesh : mesh2) : Option BBox :=
  bbox_loop mesh mesh.nodenum 0
    ⟨make_float4 (-inf) (-inf) (-inf) 0, make_float4 inf inf inf 0⟩

/-- Well-formed node coordinate collections: the three coordinate lists
have the authoritative length `nodenum`. -/
abbrev nodesWF (mesh : mesh2) : Prop :=
  mesh.n_x.length = mesh.nodenum ∧ mesh.n_y.length = mesh.nodenum ∧
  mesh.n_z.length = mesh.nodenum

/-- A node-index column is well-formed: length `tetnum`, every entry a
valid node index. -/
abbrev nindexWF (mesh : mesh2) (l : List Int) : Prop :=
  l.length = mesh.tetnum ∧ ∀ j ∈ l, 0 ≤ j ∧ j < (mesh.nodenum : Int)

/-- A face-index column is well-formed: length `tetnum`, every entry a
valid face index. -/
abbrev findexWF (mesh : mesh2) (l : List Int) : Prop :=
  l.length = mesh.tetnum ∧ ∀ j ∈ l, 0 ≤ j ∧ j < (mesh.facenum : Int)

/-- A neighbor-index column is well-formed: length `tetnum`, every entry a
valid tetrahedron index or the sentinel -1. -/
abbrev adjtetWF (mesh : mesh2) (l : List Int) : Prop :=
  l.length = mesh.tetnum ∧ ∀ j ∈ l, -1 ≤ j ∧ j < (mesh.tetnum : Int)

/-- Well-formed mesh per the spec's data model (section 3): all collection
lengths match the authoritative counts, node/face indices are in range,
neighbor indices are in range or -1, and there is at least one face. -/
abbrev WellFormed (mesh : mesh2) : Prop :=
  nodesWF mesh ∧
  nindexWF mesh mesh.t_nindex1 ∧ nindexWF mesh mesh.t_nindex2 ∧
  nindexWF mesh mesh.t_nindex3 ∧ nindexWF mesh mesh.t_nindex4 ∧
  findexWF mesh mesh.t_findex1 ∧ findexWF mesh mesh.t_findex2 ∧
  findexWF mesh mesh.t_findex3 ∧ findexWF mesh mesh.t_findex4 ∧
  adjtetWF mesh mesh.t_adjtet1 ∧ adjtetWF mesh mesh.t_adjtet2 ∧
  adjtetWF mesh mesh.t_adjtet3 ∧ adjtetWF mesh mesh.t_adjtet4 ∧
  mesh.face_is_wall.length = mesh.facenum ∧
  mesh.face_is_constrained.length = mesh.facenum ∧
  0 < mesh.facenum

/-- No exit-face condition of `GetExitTet` matches for the given ray at
tetrahedron `t` of the mesh (false also when the vertex gather fails). -/
def noFaceMatchAt (mesh : mesh2) (rayo rayd : float4) (t : Int) : Bool :=
  match getTetNode mesh mesh.t_nindex1 t, getTetNode mesh mesh.t_nindex2 t,
        getTetNode mesh mesh.t_nindex3 t, getTetNode mesh mesh.t_nindex4 t with
  | some n0, some n1, some n2, some n3 => noFaceMatch rayo rayd n0 n1 n2 n3
  | _, _, _, _ => false

/-- The point `p` lies (by the source's containment predicate) in
tetrahedron `t` of the mesh (false also when the vertex gather fails). -/
def pointInTetAt (mesh : mesh2) (p : float4) (t : Int) : Bool :=
  match getTetNode mesh mesh.t_nindex1 t, getTetNode mesh mesh.t_nindex2 t,
        getTetNode mesh mesh.t_nindex3 t, getTetNode mesh mesh.t_nindex4 t with
  | some n0, some n1, some n2, some n3 => IsPointInTetrahedron n0 n1 n2 n3 p
  | _, _, _, _ => false

/-- The single unit tetrahedron of the spec's test scenario: vertices
(0,0,0),(1,0,0),(0,1,0),(0,0,1), all four faces flagged `is_wall`, all
neighbors -1.  Face slot `k` (i.e. `findex[k] = k`) is the face opposite
vertex `k`; in particular face 0 is the triangle of nodes 1,2,3, opposite
vertex 0 = (0,0,0). -/
def unitTetMeshAllWall : mesh2 :=
  { tetnum := 1, nodenum := 4, facenum := 4,
    n_x := [0, 1, 0, 0], n_y := [0, 0, 1, 0], n_z := [0, 0, 0, 1],
    t_nindex1 := [0], t_nindex2 := [1], t_nindex3 := [2], t_nindex4 := [3],
    t_findex1 := [0], t_findex2 := [1], t_findex3 := [2], t_findex4 := [3],
    t_adjtet1 := [-1], t_adjtet2 := [-1], t_adjtet3 := [-1], t_adjtet4 := [-1],
    f_node_a := [1, 0, 0, 0], f_node_b := [2, 2, 1, 1], f_node_c := [3, 3, 3, 2],
    face_is_wall := [true, true, true, true],
    face_is_constrained := [false, false, false, false] }

/-- The same unit tetrahedron with no face flagged at all. -/
def unitTetMeshNoFlags : mesh2 :=
  { unitTetMeshAllWall with
    face_is_wall := [false, false, false, false],
    face_is_constrained := [false, false, false, false] }

/-- The same unit tetrahedron with every face flagged both `is_wall` and
`is_constrained` (the data model does not enforce their exclusivity). -/
def unitTetMeshBothFlags : mesh2 :=
  { unitTetMeshAllWall with
    face_is_wall := [true, true, true, true],
    face_is_constrained := [true, true, true, true] }

/-- A mesh holding only two nodes, (0,0,0) and (1,1,1), for the bounding
box computation. -/
def twoNodeMesh : mesh2 :=
  { tetnum := 0, nodenum := 2, facenum := 0,
    n_x := [0, 1], n_y := [0, 1], n_z := [0, 1],
    t_nindex1 := [], t_nindex2 := [], t_nindex3 := [], t_nindex4 := [],
    t_findex1 := [], t_findex2 := [], t_findex3 := [], t_findex4 := [],
    t_adjtet1 := [], t_adjtet2 := [], t_adjtet3 := [], t_adjtet4 := [],
    f_node_a := [], f_node_b := [], f_node_c := [],
    face_is_wall := [], face_is_constrained := [] }

/-- Ray origin (0.1, 0.1, 0.1) of the spec scenario. -/
def rayO : float4 := make_float4 (1/10) (1/10) (1/10) 0

/-- Ray direction (1, 1, 1) of the spec scenario. -/
def rayD : float4 := make_float4 1 1 1 0

/-- The degenerate all-zero ray direction: every scalar triple product is
zero, so no exit-face condition can match. -/
def zeroD : float4 := make_float4 0 0 0 0

/-- A target point (0.15, 0.15, 0.15) strictly inside the unit
tetrahedron. -/
def endInside : float4 := make_float4 (3/20) (3/20) (3/20) 0

/-- A point far outside the unit tetrahedron. -/
def farPoint : float4 := make_float4 10 10 10 0

/-- The `rayhit` value produced by `traverse_ray` on the all-wall unit
tetrahedron scenario. -/
def unitHit : rayhit :=
  { pos := make_float4 0 0 0 0, tet := 0, face := 0, depth := 80,
    wall := true, constrained := false, dark := false }

/-- Flag invariant of a traversal state: `dark` is never set inside the
loop, a found hit carries `wall` or `constrained`, and no flag is set
before a hit is found. -/
def flagInv (st : travState) : Prop :=
  st.d.dark = false ∧
  (st.hitfound = true → st.d.wall = true ∨ st.d.constrained = true) ∧
  (st.hitfound = false → st.d.wall = false ∧ st.d.constrained = false)

theorem readArr_some_of {α : Type} {l : List α} {i : Int}
    (h0 : 0 ≤ i) (h1 : i < (l.length : Int)) :
    ∃ v, readArr l i = some v ∧ v ∈ l := by
  have h2 : i.toNat < l.length := by omega
  exact ⟨l.get ⟨i.toNat, h2⟩, by simp [readArr, h0, h2], l.get_mem _ _⟩

theorem readArr_eq_none {α : Type} {l : List α} {i : Int}
    (h : i < 0 ∨ (l.length : Int) ≤ i) : readArr l i = none := by
  have : ¬(0 ≤ i ∧ i.toNat < l.length) := by omega
  simp [readArr, this]

theorem getTetNode_some {mesh : mesh2} {l : List Int} {t : Int}
    (hn : nodesWF mesh) (hl : nindexWF mesh l)
    (h0 : 0 ≤ t) (h1 : t < (mesh.tetnum : Int)) :
    ∃ v, getTetNode mesh l t = some v := by
  obtain ⟨hx, hy, hz⟩ := hn
  obtain ⟨hlen, hent⟩ := hl
  obtain ⟨j, hj, hjm⟩ := readArr_some_of (l := l) h0 (by rw [hlen]; exact h1)
  obtain ⟨hj0, hjn⟩ := hent j hjm
  obtain ⟨x, hxr, -⟩ := readArr_some_of (l := mesh.n_x) hj0 (by rw [hx]; exact hjn)
  obtain ⟨y, hyr, -⟩ := readArr_some_of (l := mesh.n_y) hj0 (by rw [hy]; exact hjn)
  obtain ⟨z, hzr, -⟩ := readArr_some_of (l := mesh.n_z) hj0 (by rw [hz]; exact hjn)
  exact ⟨make_float4 x y z 0, by simp [getTetNode, hj, hxr, hyr, hzr]⟩

theorem GetExitTet_cases (ray_o ray_d n0 n1 n2 n3 : float4)
    (f0 f1 f2 f3 a0 a1 a2 a3 lface : Int) :
    GetExitTet ray_o ray_d n0 n1 n2 n3 f0 f1 f2 f3 a0 a1 a2 a3 lface = (0, 0) ∨
    GetExitTet ray_o ray_d n0 n1 n2 n3 f0 f1 f2 f3 a0 a1 a2 a3 lface = (f0, a0) ∨
    GetExitTet ray_o ray_d n0 n1 n2 n3 f0 f1 f2 f3 a0 a1 a2 a3 lface = (f1, a1) ∨
    GetExitTet ray_o ray_d n0 n1 n2 n3 f0 f1 f2 f3 a0 a1 a2 a3 lface = (f2, a2) ∨
    GetExitTet ray_o ray_d n0 n1 n2 n3 f0 f1 f2 f3 a0 a1 a2 a3 lface = (f3, a3) := by
  simp only [GetExitTet]
  split_ifs <;> tauto

theorem GetExitTet_of_noFaceMatch {ray_o ray_d n0 n1 n2 n3 : float4}
    (f0 f1 f2 f3 a0 a1 a2 a3 lface : Int)
    (h : noFaceMatch ray_o ray_d n0 n1 n2 n3 = true) :
    GetExitTet ray_o ray_d n0 n1 n2 n3 f0 f1 f2 f3 a0 a1 a2 a3 lface = (0, 0) := by
  simp only [noFaceMatch, Bool.and_eq_true, Bool.not_eq_true'] at h
  obtain ⟨⟨⟨hA, hB⟩, hC⟩, hD⟩ := h
  simp [GetExitTet, hA, hB, hC, hD]

theorem stepUpdate_hitfound (st : travState) (c w : Bool) (nf nt : Int) :
    (stepUpdate st c w nf nt).hitfound =
      (st.hitfound || c || w || stopsOutOfMesh nt nf) := by
  simp only [stepUpdate]
  split_ifs with h1 h2 h3 <;> simp_all

theorem stepUpdate_dark (st : travState) (c w : Bool) (nf nt : Int) :
    (stepUpdate st c w nf nt).d.dark = st.d.dark := by
  simp only [stepUpdate]
  split_ifs <;> simp

theorem stepUpdate_depth (st : travState) (c w : Bool) (nf nt : Int) :
    (stepUpdate st c w nf nt).d.depth = st.d.depth := by
  simp only [stepUpdate]
  split_ifs <;> simp

theorem stepUpdate_constrained (st : travState) (c w : Bool) (nf nt : Int) :
    (stepUpdate st c w nf nt).d.constrained = (st.d.constrained || c) := by
  simp only [stepUpdate]
  split_ifs with h1 h2 h3 <;> simp_all

theorem stepUpdate_wall (st : travState) (c w : Bool) (nf nt : Int) :
    (stepUpdate st c w nf nt).d.wall =
      (st.d.wall || w || stopsOutOfMesh nt nf) := by
  simp only [stepUpdate]
  split_ifs with h1 h2 h3 <;> simp_all

theorem stepUpdate_current (st : travState) (c w : Bool) (nf nt : Int) :
    (stepUpdate st c w nf nt).current_tet = nt := rfl

theorem stepUpdate_nextface_eq (st : travState) (c w : Bool) (nf nt : Int) :
    (stepUpdate st c w nf nt).nextface = nf := rfl

theorem stepUpdate_tet (st : travState) (c w : Bool) (nf nt : Int)
    (h : (c || w || stopsOutOfMesh nt nf) = true) :
    (stepUpdate st c w nf nt).d.tet = st.current_tet := by
  simp only [stepUpdate]
  split_ifs with h1 h2 h3 <;> simp_all

theorem stepUpdate_id (st : travState) (c w : Bool) (nf nt : Int)
    (hc : c = false) (hw : w = false) (hs : stopsOutOfMesh nt nf = false) :
    stepUpdate st c w nf nt =
      { st with lastface := nf, current_tet := nt, nexttet := nt, nextface := nf } := by
  simp [stepUpdate, hc, hw, hs]

theorem stepUpdatePoint_hitfound (st : travState) (inTet c w : Bool) (nf nt : Int) :
    (stepUpdatePoint st inTet c w nf nt).hitfound =
      (st.hitfound || inTet || c || w || stopsOutOfMesh nt nf) := by
  simp only [stepUpdatePoint, stepUpdate]
  split_ifs with h0 h1 h2 h3 <;> simp_all

theorem stepUpdatePoint_dark (st : travState) (inTet c w : Bool) (nf nt : Int) :
    (stepUpdatePoint st inTet c w nf nt).d.dark = st.d.dark := by
  simp only [stepUpdatePoint, stepUpdate]
  split_ifs <;> simp_all

theorem stepUpdatePoint_tet (st : travState) (inTet c w : Bool) (nf nt : Int)
    (h : (inTet || c || w || stopsOutOfMesh nt nf) = true) :
    (stepUpdatePoint st inTet c w nf nt).d.tet = st.current_tet := by
  simp only [stepUpdatePoint, stepUpdate]
  split_ifs with h0 h1 h2 h3 <;> simp_all

theorem stepUpdate_flagInv {st : travState} {c w : Bool} {nf nt : Int}
    (hf : flagInv st) (hh : st.hitfound = false) :
    flagInv (stepUpdate st c w nf nt) := by
  obtain ⟨hd, hT, hF⟩ := hf
  obtain ⟨hw0, hc0⟩ := hF hh
  unfold flagInv
  rw [stepUpdate_dark, stepUpdate_hitfound, stepUpdate_wall, stepUpdate_constrained,
    hh, hd, hw0, hc0]
  cases c <;> cases w <;> cases stopsOutOfMesh nt nf <;> simp

theorem traverse_body_of_hit {mesh : mesh2} {rayo rayd : float4} {st : travState}
    (h : st.hitfound = true) : traverse_body mesh rayo rayd st = some st := by
  simp [traverse_body, h]

theorem traverse_point_body_of_hit {mesh : mesh2} {rayo rayd endP : float4}
    {st : travState} (h : st.hitfound = true) :
    traverse_point_body mesh rayo rayd endP st = some st := by
  simp [traverse_point_body, h]

theorem stepUpdatePoint_depth (st : travState) (inTet c w : Bool) (nf nt : Int) :
    (stepUpdatePoint st inTet c w nf nt).d.depth = st.d.depth := by
  simp only [stepUpdatePoint, stepUpdate]
  split_ifs <;> simp_all

theorem traverse_body_reads {mesh : mesh2} {rayo rayd : float4} {st : travState}
    (hh : st.hitfound = false)
    {f0 f1 f2 f3 a0 a1 a2 a3 : Int} {n0 n1 n2 n3 : float4} {c w : Bool}
    (hf0 : readArr mesh.t_findex1 st.current_tet = some f0)
    (hf1 : readArr mesh.t_findex2 st.current_tet = some f1)
    (hf2 : readArr mesh.t_findex3 st.current_tet = some f2)
    (hf3 : readArr mesh.t_findex4 st.current_tet = some f3)
    (ha0 : readArr mesh.t_adjtet1 st.current_tet = some a0)
    (ha1 : readArr mesh.t_adjtet2 st.current_tet = some a1)
    (ha2 : readArr mesh.t_adjtet3 st.current_tet = some a2)
    (ha3 : readArr mesh.t_adjtet4 st.current_tet = some a3)
    (hn0 : getTetNode mesh mesh.t_nindex1 st.current_tet = some n0)
    (hn1 : getTetNode mesh mesh.t_nindex2 st.current_tet = some n1)
    (hn2 : getTetNode mesh mesh.t_nindex3 st.current_tet = some n2)
    (hn3 : getTetNode mesh mesh.t_nindex4 st.current_tet = some n3)
    (hc : readArr mesh.face_is_constrained
      (GetExitTet rayo rayd n0 n1 n2 n3 f0 f1 f2 f3 a0 a1 a2 a3 st.lastface).1 = some c)
    (hw : readArr mesh.face_is_wall
      (GetExitTet rayo rayd n0 n1 n2 n3 f0 f1 f2 f3 a0 a1 a2 a3 st.lastface).1 = some w) :
    traverse_body mesh rayo rayd st = some (stepUpdate st c w
      (GetExitTet rayo rayd n0 n1 n2 n3 f0 f1 f2 f3 a0 a1 a2 a3 st.lastface).1
      (GetExitTet rayo rayd n0 n1 n2 n3 f0 f1 f2 f3 a0 a1 a2 a3 st.lastface).2) := by
  unfold traverse_body
  rw [if_neg (by simp [hh])]
  refine Option.bind_eq_some'.mpr ⟨f0, hf0, ?_⟩
  refine Option.bind_eq_some'.mpr ⟨f1, hf1, ?_⟩
  refine Option.bind_eq_some'.mpr ⟨f2, hf2, ?_⟩
  refine Option.bind_eq_some'.mpr ⟨f3, hf3, ?_⟩
  refine Option.bind_eq_some'.mpr ⟨a0, ha0, ?_⟩
  refine Option.bind_eq_some'.mpr ⟨a1, ha1, ?_⟩
  refine Option.bind_eq_some'.mpr ⟨a2, ha2, ?_⟩
  refine Option.bind_eq_some'.mpr ⟨a3, ha3, ?_⟩
  refine Option.bind_eq_some'.mpr ⟨n0, hn0, ?_⟩
  refine Option.bind_eq_some'.mpr ⟨n1, hn1, ?_⟩
  refine Option.bind_eq_some'.mpr ⟨n2, hn2, ?_⟩
  refine Option.bind_eq_some'.mpr ⟨n3, hn3, ?_⟩
  refine Option.bind_eq_some'.mpr ⟨c, hc, ?_⟩
  refine Option.bind_eq_some'.mpr ⟨w, hw, ?_⟩
  rfl

theorem traverse_point_body_reads {mesh : mesh2} {rayo rayd endP : float4}
    {st : travState} (hh : st.hitfound = false)
    {f0 f1 f2 f3 a0 a1 a2 a3 : Int} {n0 n1 n2 n3 : float4} {c w : Bool}
    (hf0 : readArr mesh.t_findex1 st.current_tet = some f0)
    (hf1 : readArr mesh.t_findex2 st.current_tet = some f1)
    (hf2 : readArr mesh.t_findex3 st.current_tet = some f2)
    (hf3 : readArr mesh.t_findex4 st.current_tet = some f3)
    (ha0 : readArr mesh.t_adjtet1 st.current_tet = some a0)
    (ha1 : readArr mesh.t_adjtet2 st.current_tet = some a1)
    (ha2 : readArr mesh.t_adjtet3 st.current_tet = some a2)
    (ha3 : readArr mesh.t_adjtet4 st.current_tet = some a3)
    (hn0 : getTetNode mesh mesh.t_nindex1 st.current_tet = some n0)
    (hn1 : getTetNode mesh mesh.t_nindex2 st.current_tet = some n1)
    (hn2 : getTetNode mesh mesh.t_nindex3 st.current_tet = some n2)
    (hn3 : getTetNode mesh mesh.t_nindex4 st.current_tet = some n3)
    (hc : readArr mesh.face_is_constrained
      (GetExitTet rayo rayd n0 n1 n2 n3 f0 f1 f2 f3 a0 a1 a2 a3 st.lastface).1 = some c)
    (hw : readArr mesh.face_is_wall
      (GetExitTet rayo rayd n0 n1 n2 n3 f0 f1 f2 f3 a0 a1 a2 a3 st.lastface).1 = some w) :
    traverse_point_body mesh rayo rayd endP st =
      some (stepUpdatePoint st (IsPointInTetrahedron n0 n1 n2 n3 endP) c w
        (GetExitTet rayo rayd n0 n1 n2 n3 f0 f1 f2 f3 a0 a1 a2 a3 st.lastface).1
        (GetExitTet rayo rayd n0 n1 n2 n3 f0 f1 f2 f3 a0 a1 a2 a3 st.lastface).2) := by
  unfold traverse_point_body
  rw [if_neg (by simp [hh])]
  refine Option.bind_eq_some'.mpr ⟨f0, hf0, ?_⟩
  refine Option.bind_eq_some'.mpr ⟨f1, hf1, ?_⟩
  refine Option.bind_eq_some'.mpr ⟨f2, hf2, ?_⟩
  refine Option.bind_eq_some'.mpr ⟨f3, hf3, ?_⟩
  refine Option.bind_eq_some'.mpr ⟨a0, ha0, ?_⟩
  refine Option.bind_eq_some'.mpr ⟨a1, ha1, ?_⟩
  refine Option.bind_eq_some'.mpr ⟨a2, ha2, ?_⟩
  refine Option.bind_eq_some'.mpr ⟨a3, ha3, ?_⟩
  refine Option.bind_eq_some'.mpr ⟨n0, hn0, ?_⟩
  refine Option.bind_eq_some'.mpr ⟨n1, hn1, ?_⟩
  refine Option.bind_eq_some'.mpr ⟨n2, hn2, ?_⟩
  refine Option.bind_eq_some'.mpr ⟨n3, hn3, ?_⟩
  refine Option.bind_eq_some'.mpr ⟨c, hc, ?_⟩
  refine Option.bind_eq_some'.mpr ⟨w, hw, ?_⟩
  rfl

theorem traverse_body_eq {mesh : mesh2} {rayo rayd : float4} {st : travState}
    (hWF : WellFormed mesh) (hh : st.hitfound = false)
    (h0 : 0 ≤ st.current_tet) (h1 : st.current_tet < (mesh.tetnum : Int)) :
    ∃ (c w : Bool) (nf nt : Int),
      traverse_body mesh rayo rayd st = some (stepUpdate st c w nf nt) ∧
      (nt = 0 ∨ (-1 ≤ nt ∧ nt < (mesh.tetnum : Int))) := by
  obtain ⟨hn, hni1, hni2, hni3, hni4, hfi1, hfi2, hfi3, hfi4,
    had1, had2, had3, had4, hwl, hcl, hfpos⟩ := hWF
  obtain ⟨f0, hf0, hf0m⟩ := readArr_some_of (l := mesh.t_findex1) h0 (by rw [hfi1.1]; exact h1)
  obtain ⟨f1, hf1, hf1m⟩ := readArr_some_of (l := mesh.t_findex2) h0 (by rw [hfi2.1]; exact h1)
  obtain ⟨f2, hf2, hf2m⟩ := readArr_some_of (l := mesh.t_findex3) h0 (by rw [hfi3.1]; exact h1)
  obtain ⟨f3, hf3, hf3m⟩ := readArr_some_of (l := mesh.t_findex4) h0 (by rw [hfi4.1]; exact h1)
  obtain ⟨a0, ha0, ha0m⟩ := readArr_some_of (l := mesh.t_adjtet1) h0 (by rw [had1.1]; exact h1)
  obtain ⟨a1, ha1, ha1m⟩ := readArr_some_of (l := mesh.t_adjtet2) h0 (by rw [had2.1]; exact h1)
  obtain ⟨a2, ha2, ha2m⟩ := readArr_some_of (l := mesh.t_adjtet3) h0 (by rw [had3.1]; exact h1)
  obtain ⟨a3, ha3, ha3m⟩ := readArr_some_of (l := mesh.t_adjtet4) h0 (by rw [had4.1]; exact h1)
  obtain ⟨n0, hn0⟩ := getTetNode_some hn hni1 h0 h1
  obtain ⟨n1, hn1⟩ := getTetNode_some hn hni2 h0 h1
  obtain ⟨n2, hn2⟩ := getTetNode_some hn hni3 h0 h1
  obtain ⟨n3, hn3⟩ := getTetNode_some hn hni4 h0 h1
  have hb1 : 0 ≤ (GetExitTet rayo rayd n0 n1 n2 n3 f0 f1 f2 f3 a0 a1 a2 a3 st.lastface).1 ∧
      (GetExitTet rayo rayd n0 n1 n2 n3 f0 f1 f2 f3 a0 a1 a2 a3 st.lastface).1 <
        (mesh.facenum : Int) := by
    rcases GetExitTet_cases rayo rayd n0 n1 n2 n3 f0 f1 f2 f3 a0 a1 a2 a3 st.lastface with
      h | h | h | h | h <;> rw [h]
    · refine ⟨le_refl 0, ?_⟩
      show (0 : Int) < (mesh.facenum : Int)
      exact_mod_cast hfpos
    · exact hfi1.2 f0 hf0m
    · exact hfi2.2 f1 hf1m
    · exact hfi3.2 f2 hf2m
    · exact hfi4.2 f3 hf3m
  have hb2 : (GetExitTet rayo rayd n0 n1 n2 n3 f0 f1 f2 f3 a0 a1 a2 a3 st.lastface).2 = 0 ∨
      (-1 ≤ (GetExitTet rayo rayd n0 n1 n2 n3 f0 f1 f2 f3 a0 a1 a2 a3 st.lastface).2 ∧
       (GetExitTet rayo rayd n0 n1 n2 n3 f0 f1 f2 f3 a0 a1 a2 a3 st.lastface).2 <
         (mesh.tetnum : Int)) := by
    rcases GetExitTet_cases rayo rayd n0 n1 n2 n3 f0 f1 f2 f3 a0 a1 a2 a3 st.lastface with
      h | h | h | h | h <;> rw [h]
    · exact Or.inl rfl
    · exact Or.inr (had1.2 a0 ha0m)
    · exact Or.inr (had2.2 a1 ha1m)
    · exact Or.inr (had3.2 a2 ha2m)
    · exact Or.inr (had4.2 a3 ha3m)
  obtain ⟨c, hc, -⟩ :=
    readArr_some_of (l := mesh.face_is_constrained) hb1.1 (by rw [hcl]; exact hb1.2)
  obtain ⟨w, hw, -⟩ :=
    readArr_some_of (l := mesh.face_is_wall) hb1.1 (by rw [hwl]; exact hb1.2)
  refine ⟨c, w, (GetExitTet rayo rayd n0 n1 n2 n3 f0 f1 f2 f3 a0 a1 a2 a3 st.lastface).1,
    (GetExitTet rayo rayd n0 n1 n2 n3 f0 f1 f2 f3 a0 a1 a2 a3 st.lastface).2, ?_, hb2⟩
  exact traverse_body_reads hh hf0 hf1 hf2 hf3 ha0 ha1 ha2 ha3 hn0 hn1 hn2 hn3 hc hw

theorem traverse_body_inv {mesh : mesh2} {rayo rayd : float4} {st st' : travState}
    (h : traverse_body mesh rayo rayd st = some st') :
    st' = st ∨ ∃ (c w : Bool) (nf nt : Int), st' = stepUpdate st c w nf nt := by
  by_cases hh : st.hitfound = true
  · rw [traverse_body_of_hit hh] at h
    exact Or.inl (Option.some_injective _ h).symm
  · rw [Bool.not_eq_true] at hh
    right
    unfold traverse_body at h
    rw [if_neg (by simp [hh])] at h
    obtain ⟨f0, -, h⟩ := Option.bind_eq_some'.mp h
    obtain ⟨f1, -, h⟩ := Option.bind_eq_some'.mp h
    obtain ⟨f2, -, h⟩ := Option.bind_eq_some'.mp h
    obtain ⟨f3, -, h⟩ := Option.bind_eq_some'.mp h
    obtain ⟨a0, -, h⟩ := Option.bind_eq_some'.mp h
    obtain ⟨a1, -, h⟩ := Option.bind_eq_some'.mp h
    obtain ⟨a2, -, h⟩ := Option.bind_eq_some'.mp h
    obtain ⟨a3, -, h⟩ := Option.bind_eq_some'.mp h
    obtain ⟨n0, -, h⟩ := Option.bind_eq_some'.mp h
    obtain ⟨n1, -, h⟩ := Option.bind_eq_some'.mp h
    obtain ⟨n2, -, h⟩ := Option.bind_eq_some'.mp h
    obtain ⟨n3, -, h⟩ := Option.bind_eq_some'.mp h
    obtain ⟨c, -, h⟩ := Option.bind_eq_some'.mp h
    obtain ⟨w, -, h⟩ := Option.bind_eq_some'.mp h
    exact ⟨c, w, _, _, (Option.some_injective _ h).symm⟩

theorem traverse_body_depth_dark {mesh : mesh2} {rayo rayd : float4} {st st' : travState}
    (h : traverse_body mesh rayo rayd st = some st') :
    st'.d.depth = st.d.depth ∧ st'.d.dark = st.d.dark := by
  rcases traverse_body_inv h with rfl | ⟨c, w, nf, nt, rfl⟩
  · exact ⟨rfl, rfl⟩
  · exact ⟨stepUpdate_depth st c w nf nt, stepUpdate_dark st c w nf nt⟩

theorem traverse_point_body_eq {mesh : mesh2} {rayo rayd endP : float4} {st : travState}
    (hWF : WellFormed mesh) (hh : st.hitfound = false)
    (h0 : 0 ≤ st.current_tet) (h1 : st.current_tet < (mesh.tetnum : Int)) :
    ∃ (n0 n1 n2 n3 : float4) (c w : Bool) (nf nt : Int),
      getTetNode mesh mesh.t_nindex1 st.current_tet = some n0 ∧
      getTetNode mesh mesh.t_nindex2 st.current_tet = some n1 ∧
      getTetNode mesh mesh.t_nindex3 st.current_tet = some n2 ∧
      getTetNode mesh mesh.t_nindex4 st.current_tet = some n3 ∧
      traverse_point_body mesh rayo rayd endP st =
        some (stepUpdatePoint st (IsPointInTetrahedron n0 n1 n2 n3 endP) c w nf nt) := by
  obtain ⟨hn, hni1, hni2, hni3, hni4, hfi1, hfi2, hfi3, hfi4,
    had1, had2, had3, had4, hwl, hcl, hfpos⟩ := hWF
  obtain ⟨f0, hf0, hf0m⟩ := readArr_some_of (l := mesh.t_findex1) h0 (by rw [hfi1.1]; exact h1)
  obtain ⟨f1, hf1, hf1m⟩ := readArr_some_of (l := mesh.t_findex2) h0 (by rw [hfi2.1]; exact h1)
  obtain ⟨f2, hf2, hf2m⟩ := readArr_some_of (l := mesh.t_findex3) h0 (by rw [hfi3.1]; exact h1)
  obtain ⟨f3, hf3, hf3m⟩ := readArr_some_of (l := mesh.t_findex4) h0 (by rw [hfi4.1]; exact h1)
  obtain ⟨a0, ha0, ha0m⟩ := readArr_some_of (l := mesh.t_adjtet1) h0 (by rw [had1.1]; exact h1)
  obtain ⟨a1, ha1, ha1m⟩ := readArr_some_of (l := mesh.t_adjtet2) h0 (by rw [had2.1]; exact h1)
  obtain ⟨a2, ha2, ha2m⟩ := readArr_some_of (l := mesh.t_adjtet3) h0 (by rw [had3.1]; exact h1)
  obtain ⟨a3, ha3, ha3m⟩ := readArr_some_of (l := mesh.t_adjtet4) h0 (by rw [had4.1]; exact h1)
  obtain ⟨n0, hn0⟩ := getTetNode_some hn hni1 h0 h1
  obtain ⟨n1, hn1⟩ := getTetNode_some hn hni2 h0 h1
  obtain ⟨n2, hn2⟩ := getTetNode_some hn hni3 h0 h1
  obtain ⟨n3, hn3⟩ := getTetNode_some hn hni4 h0 h1
  have hb1 : 0 ≤ (GetExitTet rayo rayd n0 n1 n2 n3 f0 f1 f2 f3 a0 a1 a2 a3 st.lastface).1 ∧
      (GetExitTet rayo rayd n0 n1 n2 n3 f0 f1 f2 f3 a0 a1 a2 a3 st.lastface).1 <
        (mesh.facenum : Int) := by
    rcases GetExitTet_cases rayo rayd n0 n1 n2 n3 f0 f1 f2 f3 a0 a1 a2 a3 st.lastface with
      h | h | h | h | h <;> rw [h]
    · refine ⟨le_refl 0, ?_⟩
      show (0 : Int) < (mesh.facenum : Int)
      exact_mod_cast hfpos
    · exact hfi1.2 f0 hf0m
    · exact hfi2.2 f1 hf1m
    · exact hfi3.2 f2 hf2m
    · exact hfi4.2 f3 hf3m
  obtain ⟨c, hc, -⟩ :=
    readArr_some_of (l := mesh.face_is_constrained) hb1.1 (by rw [hcl]; exact hb1.2)
  obtain ⟨w, hw, -⟩ :=
    readArr_some_of (l := mesh.face_is_wall) hb1.1 (by rw [hwl]; exact hb1.2)
  refine ⟨n0, n1, n2, n3, c, w,
    (GetExitTet rayo rayd n0 n1 n2 n3 f0 f1 f2 f3 a0 a1 a2 a3 st.lastface).1,
    (GetExitTet rayo rayd n0 n1 n2 n3 f0 f1 f2 f3 a0 a1 a2 a3 st.lastface).2,
    hn0, hn1, hn2, hn3, ?_⟩
  exact traverse_point_body_reads hh hf0 hf1 hf2 hf3 ha0 ha1 ha2 ha3 hn0 hn1 hn2 hn3 hc hw

theorem traverse_loop_depth {mesh : mesh2} {rayo rayd : float4} (fuel : Nat) :
    ∀ st st' : travState, traverse_loop mesh rayo rayd fuel st = some st' →
      st'.d.depth = st.d.depth + fuel := by
  induction fuel with
  | zero =>
      intro st st' h
      simp only [traverse_loop, Option.some.injEq] at h
      rw [← h]
      simp
  | succ n ih =>
      intro st st' h
      simp only [traverse_loop] at h
      obtain ⟨st1, hb, h⟩ := Option.bind_eq_some'.mp h
      have hd := (traverse_body_depth_dark hb).1
      have h2 := ih _ _ h
      have h3 : ({ st1 with d := { st1.d with depth := st1.d.depth + 1 } } : travState).d.depth
          = st1.d.depth + 1 := rfl
      rw [h3] at h2
      omega

theorem traverse_loop_frozen {mesh : mesh2} {rayo rayd : float4} (fuel : Nat) :
    ∀ st : travState, st.hitfound = true →
      traverse_loop mesh rayo rayd fuel st =
        some { st with d := { st.d with depth := st.d.depth + fuel } } := by
  induction fuel with
  | zero =>
      intro st h
      simp only [traverse_loop, Nat.cast_zero, add_zero]
  | succ n ih =>
      intro st h
      show (traverse_body mesh rayo rayd st).bind (fun st1 =>
        traverse_loop mesh rayo rayd n
          { st1 with d := { st1.d with depth := st1.d.depth + 1 } }) = _
      rw [traverse_body_of_hit h, Option.some_bind]
      rw [ih { st with d := { st.d with depth := st.d.depth + 1 } } h]
      have harith : st.d.depth + 1 + (n : Int) = st.d.depth + ((n + 1 : Nat) : Int) := by
        push_cast
        ring
      show some { st with d := { st.d with depth := st.d.depth + 1 + (n : Int) } } = _
      rw [harith]

theorem traverse_point_loop_frozen {mesh : mesh2} {rayo rayd endP : float4} (fuel : Nat) :
    ∀ st : travState, st.hitfound = true →
      traverse_point_loop mesh rayo rayd endP fuel st =
        some { st with d := { st.d with depth := st.d.depth + fuel } } := by
  induction fuel with
  | zero =>
      intro st h
      simp only [traverse_point_loop, Nat.cast_zero, add_zero]
  | succ n ih =>
      intro st h
      show (traverse_point_body mesh rayo rayd endP st).bind (fun st1 =>
        traverse_point_loop mesh rayo rayd endP n
          { st1 with d := { st1.d with depth := st1.d.depth + 1 } }) = _
      rw [traverse_point_body_of_hit h, Option.some_bind]
      rw [ih { st with d := { st.d with depth := st.d.depth + 1 } } h]
      have harith : st.d.depth + 1 + (n : Int) = st.d.depth + ((n + 1 : Nat) : Int) := by
        push_cast
        ring
      show some { st with d := { st.d with depth := st.d.depth + 1 + (n : Int) } } = _
      rw [harith]

theorem traverse_loop_total {mesh : mesh2} {rayo rayd : float4}
    (hWF : WellFormed mesh) (fuel : Nat) :
    ∀ st : travState, flagInv st →
      (st.hitfound = true ∨ (0 ≤ st.current_tet ∧ st.current_tet < (mesh.tetnum : Int))) →
      ∃ st', traverse_loop mesh rayo rayd fuel st = some st' ∧ flagInv st' := by
  induction fuel with
  | zero =>
      intro st hf hr
      exact ⟨st, by simp [traverse_loop], hf⟩
  | succ n ih =>
      intro st hf hr
      by_cases hh : st.hitfound = true
      · obtain ⟨st', hl, hf'⟩ :=
          ih { st with d := { st.d with depth := st.d.depth + 1 } } hf (Or.inl hh)
        refine ⟨st', ?_, hf'⟩
        show (traverse_body mesh rayo rayd st).bind (fun st1 =>
          traverse_loop mesh rayo rayd n
            { st1 with d := { st1.d with depth := st1.d.depth + 1 } }) = some st'
        rw [traverse_body_of_hit hh, Option.some_bind]
        exact hl
      · rw [Bool.not_eq_true] at hh
        rcases hr with h | ⟨h0, h1⟩
        · exact absurd h (by simp [hh])
        · obtain ⟨c, w, nf, nt, hbody, hnt⟩ := traverse_body_eq hWF hh h0 h1
          have hf1 : flagInv (stepUpdate st c w nf nt) := stepUpdate_flagInv hf hh
          have hr1 : (stepUpdate st c w nf nt).hitfound = true ∨
              (0 ≤ (stepUpdate st c w nf nt).current_tet ∧
               (stepUpdate st c w nf nt).current_tet < (mesh.tetnum : Int)) := by
            rw [stepUpdate_hitfound, stepUpdate_current]
            by_cases hs : stopsOutOfMesh nt nf = true
            · left
              rw [hs]
              simp
            · right
              rw [Bool.not_eq_true] at hs
              simp only [stopsOutOfMesh, Bool.or_eq_false_iff, beq_eq_false_iff_ne,
                ne_eq] at hs
              rcases hnt with rfl | ⟨hna, hnb⟩
              · exact ⟨le_refl 0, by omega⟩
              · have := hs.1
                exact ⟨by omega, hnb⟩
          obtain ⟨st', hl, hf'⟩ :=
            ih { stepUpdate st c w nf nt with
                  d := { (stepUpdate st c w nf nt).d with
                          depth := (stepUpdate st c w nf nt).d.depth + 1 } } hf1 hr1
          refine ⟨st', ?_, hf'⟩
          show (traverse_body mesh rayo rayd st).bind (fun st1 =>
            traverse_loop mesh rayo rayd n
              { st1 with d := { st1.d with depth := st1.d.depth + 1 } }) = some st'
          rw [hbody, Option.some_bind]
          exact hl

theorem traverse_body_noMatch {mesh : mesh2} {rayo rayd : float4} {st : travState}
    (hWF : WellFormed mesh) (hh : st.hitfound = false)
    (h0 : 0 ≤ st.current_tet) (h1 : st.current_tet < (mesh.tetnum : Int))
    (hnm : noFaceMatchAt mesh rayo rayd st.current_tet = true)
    (hcz : readArr mesh.face_is_constrained 0 = some false)
    (hwz : readArr mesh.face_is_wall 0 = some false) :
    traverse_body mesh rayo rayd st =
      some { st with lastface := 0, current_tet := 0, nexttet := 0, nextface := 0 } := by
  obtain ⟨hn, hni1, hni2, hni3, hni4, hfi1, hfi2, hfi3, hfi4,
    had1, had2, had3, had4, hwl, hcl, hfpos⟩ := hWF
  obtain ⟨f0, hf0, -⟩ := readArr_some_of (l := mesh.t_findex1) h0 (by rw [hfi1.1]; exact h1)
  obtain ⟨f1, hf1, -⟩ := readArr_some_of (l := mesh.t_findex2) h0 (by rw [hfi2.1]; exact h1)
  obtain ⟨f2, hf2, -⟩ := readArr_some_of (l := mesh.t_findex3) h0 (by rw [hfi3.1]; exact h1)
  obtain ⟨f3, hf3, -⟩ := readArr_some_of (l := mesh.t_findex4) h0 (by rw [hfi4.1]; exact h1)
  obtain ⟨a0, ha0, -⟩ := readArr_some_of (l := mesh.t_adjtet1) h0 (by rw [had1.1]; exact h1)
  obtain ⟨a1, ha1, -⟩ := readArr_some_of (l := mesh.t_adjtet2) h0 (by rw [had2.1]; exact h1)
  obtain ⟨a2, ha2, -⟩ := readArr_some_of (l := mesh.t_adjtet3) h0 (by rw [had3.1]; exact h1)
  obtain ⟨a3, ha3, -⟩ := readArr_some_of (l := mesh.t_adjtet4) h0 (by rw [had4.1]; exact h1)
  obtain ⟨n0, hn0⟩ := getTetNode_some hn hni1 h0 h1
  obtain ⟨n1, hn1⟩ := getTetNode_some hn hni2 h0 h1
  obtain ⟨n2, hn2⟩ := getTetNode_some hn hni3 h0 h1
  obtain ⟨n3, hn3⟩ := getTetNode_some hn hni4 h0 h1
  have hmatch : noFaceMatch rayo rayd n0 n1 n2 n3 = true := by
    simp only [noFaceMatchAt, hn0, hn1, hn2, hn3] at hnm
    exact hnm
  have hget : GetExitTet rayo rayd n0 n1 n2 n3 f0 f1 f2 f3 a0 a1 a2 a3 st.lastface = (0, 0) :=
    GetExitTet_of_noFaceMatch f0 f1 f2 f3 a0 a1 a2 a3 st.lastface hmatch
  have hc0 : readArr mesh.face_is_constrained
      (GetExitTet rayo rayd n0 n1 n2 n3 f0 f1 f2 f3 a0 a1 a2 a3 st.lastface).1 =
        some false := by
    rw [hget]
    exact hcz
  have hw0 : readArr mesh.face_is_wall
      (GetExitTet rayo rayd n0 n1 n2 n3 f0 f1 f2 f3 a0 a1 a2 a3 st.lastface).1 =
        some false := by
    rw [hget]
    exact hwz
  rw [traverse_body_reads hh hf0 hf1 hf2 hf3 ha0 ha1 ha2 ha3 hn0 hn1 hn2 hn3 hc0 hw0]
  exact congrArg some (by rw [hget]; exact stepUpdate_id st false false 0 0 rfl rfl rfl)

theorem traverse_loop_noMatch {mesh : mesh2} {rayo rayd : float4} {start : Int}
    (hWF : WellFormed mesh) (h0 : 0 ≤ start) (h1 : start < (mesh.tetnum : Int))
    (hs : noFaceMatchAt mesh rayo rayd start = true)
    (hz : noFaceMatchAt mesh rayo rayd 0 = true)
    (hcz : readArr mesh.face_is_constrained 0 = some false)
    (hwz : readArr mesh.face_is_wall 0 = some false) (fuel : Nat) :
    ∀ st : travState, st.hitfound = false →
      (st.current_tet = start ∨ st.current_tet = 0) →
      ∃ st', traverse_loop mesh rayo rayd fuel st = some st' ∧
        st'.hitfound = false ∧
        (fuel = 0 → st' = st) ∧
        (fuel ≠ 0 → st'.current_tet = 0 ∧ st'.nextface = 0) := by
  induction fuel with
  | zero =>
      intro st hh hcur
      exact ⟨st, by simp [traverse_loop], hh, fun _ => rfl, fun hne => absurd rfl hne⟩
  | succ n ih =>
      intro st hh hcur
      have hb : traverse_body mesh rayo rayd st =
          some { st with lastface := 0, current_tet := 0, nexttet := 0, nextface := 0 } := by
        rcases hcur with hc | hc
        · exact traverse_body_noMatch hWF hh (by rw [hc]; exact h0) (by rw [hc]; exact h1)
            (by rw [hc]; exact hs) hcz hwz
        · exact traverse_body_noMatch hWF hh (by rw [hc]) (by rw [hc]; omega)
            (by rw [hc]; exact hz) hcz hwz
      obtain ⟨st', hl, hh', hz0, hnz⟩ :=
        ih { { st with lastface := 0, current_tet := 0, nexttet := 0, nextface := 0 } with
              d := { st.d with depth := st.d.depth + 1 } } hh (Or.inr rfl)
      refine ⟨st', ?_, hh', fun habs => absurd habs (Nat.succ_ne_zero n), fun _ => ?_⟩
      · show (traverse_body mesh rayo rayd st).bind (fun st1 =>
          traverse_loop mesh rayo rayd n
            { st1 with d := { st1.d with depth := st1.d.depth + 1 } }) = some st'
        rw [hb, Option.some_bind]
        exact hl
      · by_cases hn0 : n = 0
        · rw [hz0 hn0]
          exact ⟨rfl, rfl⟩
        · exact hnz hn0

theorem condABC_eq_true_iff (a b c d e f : Int) :
    condABC a b c d e f = true ↔ (a < 0 ∧ 0 < c ∧ b < 0) := by
  simp only [condABC, Bool.and_eq_true, bne_iff_ne, ne_eq, decide_eq_true_eq]
  omega

theorem condBAD_eq_true_iff (a b c d e f : Int) :
    condBAD a b c d e f = true ↔ (0 < a ∧ d < 0 ∧ 0 < e) := by
  simp only [condBAD, Bool.and_eq_true, bne_iff_ne, ne_eq, decide_eq_true_eq]
  omega

theorem condCDA_eq_true_iff (a b c d e f : Int) :
    condCDA a b c d e f = true ↔ (0 < d ∧ c < 0 ∧ f < 0) := by
  simp only [condCDA, Bool.and_eq_true, bne_iff_ne, ne_eq, decide_eq_true_eq]
  omega

theorem condDCB_eq_true_iff (a b c d e f : Int) :
    condDCB a b c d e f = true ↔ (0 < b ∧ e < 0 ∧ 0 < f) := by
  simp only [condDCB, Bool.and_eq_true, bne_iff_ne, ne_eq, decide_eq_true_eq]
  omega

/-- C7: the four face sign-pattern conditions of `GetExitTet` (for faces
ABC, BAD, CDA, DCB) are pairwise mutually exclusive: for every assignment
of signs to the six scalar triple products, at most one of the four exit
conditions holds, so the chained conditionals can never assign the outputs
twice. -/
theorem exit_conditions_pairwise_exclusive (sQAB sQBC sQAC sQAD sQBD sQCD : Int) :
    (condABC sQAB sQBC sQAC sQAD sQBD sQCD = true →
      condBAD sQAB sQBC sQAC sQAD sQBD sQCD = false ∧
      condCDA sQAB sQBC sQAC sQAD sQBD sQCD = false ∧
      condDCB sQAB sQBC sQAC sQAD sQBD sQCD = false) ∧
    (condBAD sQAB sQBC sQAC sQAD sQBD sQCD = true →
      condCDA sQAB sQBC sQAC sQAD sQBD sQCD = false ∧
      condDCB sQAB sQBC sQAC sQAD sQBD sQCD = false) ∧
    (condCDA sQAB sQBC sQAC sQAD sQBD sQCD = true →
      condDCB sQAB sQBC sQAC sQAD sQBD sQCD = false) := by
  simp only [← Bool.not_eq_true, condABC_eq_true_iff, condBAD_eq_true_iff,
    condCDA_eq_true_iff, condDCB_eq_true_iff]
  omega

/-- Witness for C7: at the concrete sign assignment (-1, -1, 1, 1, 1, 1)
the ABC condition holds and the theorem rules out the other three. -/
theorem exit_conditions_pairwise_exclusive_witness :
    condABC (-1) (-1) 1 1 1 1 = true ∧
    (condBAD (-1) (-1) 1 1 1 1 = false ∧ condCDA (-1) (-1) 1 1 1 1 = false ∧
     condDCB (-1) (-1) 1 1 1 1 = false) :=
  ⟨by decide, (exit_conditions_pairwise_exclusive (-1) (-1) 1 1 1 1).1 (by decide)⟩

/-- C9: when none of the four face sign-pattern conditions matches,
`GetExitTet` returns its outputs at the initialized values
`(face, tet) = (0, 0)` — valid-looking indices — and the traversal's
out-of-mesh test, which recognizes only -1, does not classify this
no-match result as a dead end. -/
theorem noMatch_returns_zero_zero (rayo rayd n0 n1 n2 n3 : float4)
    (f0 f1 f2 f3 a0 a1 a2 a3 lface : Int)
    (h : noFaceMatch rayo rayd n0 n1 n2 n3 = true) :
    GetExitTet rayo rayd n0 n1 n2 n3 f0 f1 f2 f3 a0 a1 a2 a3 lface = (0, 0) ∧
    stopsOutOfMesh 0 0 = false :=
  ⟨GetExitTet_of_noFaceMatch f0 f1 f2 f3 a0 a1 a2 a3 lface h, rfl⟩

/-- Witness for C9: the all-zero ray direction on the unit tetrahedron
produces all-zero signs, hence no match, and the resolver returns (0, 0)
regardless of the face/neighbor indices supplied. -/
theorem noMatch_returns_zero_zero_witness :
    noFaceMatch rayO zeroD (make_float4 0 0 0 0) (make_float4 1 0 0 0)
      (make_float4 0 1 0 0) (make_float4 0 0 1 0) = true ∧
    (GetExitTet rayO zeroD (make_float4 0 0 0 0) (make_float4 1 0 0 0)
      (make_float4 0 1 0 0) (make_float4 0 0 1 0) 7 8 9 10 11 12 13 14 5 = (0, 0) ∧
     stopsOutOfMesh 0 0 = false) :=
  ⟨by with_unfolding_all decide,
   noMatch_returns_zero_zero rayO zeroD _ _ _ _ 7 8 9 10 11 12 13 14 5
     (by with_unfolding_all decide)⟩

/-- C10: whenever `traverse_ray` returns a `rayhit`, its `depth` field
equals 80: the loop always runs all 80 iterations (iterations after a hit
merely skip the body), so `depth` never records the step count at which
the stopping condition occurred. -/
theorem depth_always_80 (mesh : mesh2) (rayo rayd : float4) (start : Int) (d : rayhit)
    (h : traverse_ray mesh rayo rayd start = some d) : d.depth = 80 := by
  unfold traverse_ray at h
  obtain ⟨st2, hl, hfin⟩ := Option.bind_eq_some'.mp h
  have hd := traverse_loop_depth 80 _ _ hl
  simp at hd
  by_cases hh : st2.hitfound = true
  · rw [if_pos hh] at hfin
    injection hfin with h2
    rw [← h2]
    exact hd
  · rw [if_neg hh] at hfin
    injection hfin with h2
    rw [← h2]
    exact hd

/-- Witness for C10: the all-wall unit tetrahedron scenario returns a
result, and its depth is 80. -/
theorem depth_always_80_witness :
    traverse_ray unitTetMeshAllWall rayO rayD 0 = some unitHit ∧ unitHit.depth = 80 :=
  ⟨by with_unfolding_all decide,
   depth_always_80 unitTetMeshAllWall rayO rayD 0 unitHit (by with_unfolding_all decide)⟩

/-- C2 counterexample: the claimed scenario result has depth = 80, the
final value of the loop counter, not depth = 0. -/
theorem unitTet_depth_cex :
    Option.map rayhit.depth (traverse_ray unitTetMeshAllWall rayO rayD 0) = some 80 ∧
    (80 : Int) ≠ 0 := by
  with_unfolding_all decide

/-- C2 (amended): on the all-wall unit tetrahedron, a ray from
(0.1, 0.1, 0.1) in direction (1, 1, 1) returns wall = true, tet = 0, and
exits through face 0 — the face with nodes 1, 2, 3, i.e. the face opposite
vertex (0,0,0) — but the returned depth is 80 (the loop counter retains
its bound), not 0. -/
theorem unitTet_traverse :
    traverse_ray unitTetMeshAllWall rayO rayD 0 = some unitHit ∧
    unitHit.wall = true ∧ unitHit.tet = 0 ∧ unitHit.face = 0 ∧ unitHit.depth = 80 ∧
    readArr unitTetMeshAllWall.f_node_a 0 = some 1 ∧
    readArr unitTetMeshAllWall.f_node_b 0 = some 2 ∧
    readArr unitTetMeshAllWall.f_node_c 0 = some 3 := by
  with_unfolding_all decide

/-- C3 (code bug): the locator returns the smallest containing tetrahedron
index (`some (some 0)` for a point inside tetrahedron 0), but when the
scan completes without a match no return statement executes — control
falls off the end of the non-void C++ function (modelled `some none`),
yielding an undefined value rather than an explicit "not found" result. -/
theorem locate_falls_off_end :
    GetTetrahedraFromPoint unitTetMeshAllWall farPoint = some none ∧
    GetTetrahedraFromPoint unitTetMeshAllWall endInside = some (some 0) := by
  with_unfolding_all decide

/-- C8 (code bug): on a mesh with nodes (0,0,0) and (1,1,1), `init_BBox`
returns min = (1,1,1) and max = (0,0,0): the inverted comparisons make the
min corner track the componentwise maximum of the node positions and the
max corner the minimum — node 0 has coordinate 0, strictly below the
returned min corner. -/
theorem init_BBox_inverted :
    init_BBox twoNodeMesh = some ⟨make_float4 1 1 1 0, make_float4 0 0 0 0⟩ ∧
    readArr twoNodeMesh.n_x 0 = some 0 ∧ ¬((1 : ℚ) ≤ 0) := by
  with_unfolding_all decide

theorem traverse_body_none {mesh : mesh2} {rayo rayd : float4} {st : travState}
    (hh : st.hitfound = false)
    (h : readArr mesh.t_findex1 st.current_tet = none) :
    traverse_body mesh rayo rayd st = none := by
  unfold traverse_body
  rw [if_neg (by simp [hh]), h]
  rfl

theorem traverse_loop_none {mesh : mesh2} {rayo rayd : float4} (fuel : Nat)
    (st : travState) (h : traverse_body mesh rayo rayd st = none) (hfuel : fuel ≠ 0) :
    traverse_loop mesh rayo rayd fuel st = none := by
  cases fuel with
  | zero => exact absurd rfl hfuel
  | succ n =>
      show (traverse_body mesh rayo rayd st).bind _ = none
      rw [h]
      rfl

/-- C6 (amended): `traverse_ray` performs no validation of the start
tetrahedron index: an out-of-range start causes an out-of-range array read
on the very first iteration (undefined behaviour in the source, modelled
as the absence of a result), rather than completing with a dark = true
RayHit. -/
theorem out_of_range_start_none (mesh : mesh2) (rayo rayd : float4) (start : Int)
    (hlen : mesh.t_findex1.length = mesh.tetnum)
    (hout : start < 0 ∨ (mesh.tetnum : Int) ≤ start) :
    traverse_ray mesh rayo rayd start = none := by
  have hr : readArr mesh.t_findex1 start = none := by
    refine readArr_eq_none ?_
    rcases hout with h | h
    · exact Or.inl h
    · right
      rw [hlen]
      exact h
  simp only [traverse_ray]
  rw [traverse_loop_none 80 _ (traverse_body_none rfl hr) (by norm_num)]
  rfl

/-- Witness for C6: start index 99 on the unflagged 1-tetrahedron mesh
yields no result. -/
theorem out_of_range_start_none_witness :
    traverse_ray unitTetMeshNoFlags rayO rayD 99 = none :=
  out_of_range_start_none unitTetMeshNoFlags rayO rayD 99 (by decide) (Or.inr (by decide))

/-- C6 counterexample: start index 5 on the 1-tetrahedron mesh produces no
completed RayHit at all — in particular not one with dark = true. -/
theorem out_of_range_cex :
    traverse_ray unitTetMeshAllWall rayO rayD 5 = none := by
  with_unfolding_all decide

/-- C1 counterexample: on the all-wall unit tetrahedron with the all-zero
ray direction, the resolver finds no matching face sign combination at the
first step, yet traverse_ray returns wall = true and dark = false: the
(0, 0) no-match output is processed as a real exit through face 0. -/
theorem noMatch_not_dark_cex :
    noFaceMatchAt unitTetMeshAllWall rayO zeroD 0 = true ∧
    traverse_ray unitTetMeshAllWall rayO zeroD 0 =
      some { pos := make_float4 0 0 0 0, tet := 0, face := 0, depth := 80,
             wall := true, constrained := false, dark := false } := by
  with_unfolding_all decide

/-- C1 (amended): a no-match from `GetExitTet` yields face 0 and
tetrahedron 0 and is not detected specially by traverse_ray; dark = true
is reported only when no stopping condition is met within the 80-step
bound. In particular, when no face combination matches at the start
tetrahedron and at tetrahedron 0 and face 0 is neither wall nor
constrained, traverse_ray returns dark = true with tet = 0 and face = 0. -/
theorem noMatch_eventually_dark (mesh : mesh2) (rayo rayd : float4) (start : Int)
    (hWF : WellFormed mesh) (h0 : 0 ≤ start) (h1 : start < (mesh.tetnum : Int))
    (hs : noFaceMatchAt mesh rayo rayd start = true)
    (hz : noFaceMatchAt mesh rayo rayd 0 = true)
    (hcz : readArr mesh.face_is_constrained 0 = some false)
    (hwz : readArr mesh.face_is_wall 0 = some false) :
    ∃ d, traverse_ray mesh rayo rayd start = some d ∧
      d.dark = true ∧ d.tet = 0 ∧ d.face = 0 := by
  obtain ⟨st2, hl, hh2, -, hnz⟩ :=
    traverse_loop_noMatch hWF h0 h1 hs hz hcz hwz 80
      { current_tet := start, nexttet := 0, nextface := 0, lastface := 0,
        hitfound := false, d := { pos := make_float4 0 0 0 0 } } rfl (Or.inl rfl)
  obtain ⟨hcur, hnf⟩ := hnz (by norm_num)
  refine ⟨{ st2.d with dark := true, face := st2.nextface, tet := st2.current_tet },
    ?_, rfl, hcur, hnf⟩
  simp only [traverse_ray]
  rw [hl, Option.some_bind, if_neg (by simp [hh2])]

/-- Witness for C1: the unflagged unit tetrahedron with the all-zero ray
direction reaches the dark outcome. -/
theorem noMatch_eventually_dark_witness :
    ∃ d, traverse_ray unitTetMeshNoFlags rayO zeroD 0 = some d ∧
      d.dark = true ∧ d.tet = 0 ∧ d.face = 0 :=
  noMatch_eventually_dark unitTetMeshNoFlags rayO zeroD 0
    (by decide) (by decide) (by decide)
    (by with_unfolding_all decide) (by with_unfolding_all decide)
    (by decide) (by decide)

/-- C5 counterexample: on the unit tetrahedron whose faces are flagged both
wall and constrained, `traverse_ray` returns a RayHit with BOTH wall and
constrained set to true — the three flags are not "exactly one" set. -/
theorem flags_not_exclusive_cex :
    traverse_ray unitTetMeshBothFlags rayO rayD 0 =
      some { pos := make_float4 0 0 0 0, tet := 0, face := 0, depth := 80,
             wall := true, constrained := true, dark := false } := by
  with_unfolding_all decide

/-- C5 (amended): for a well-formed mesh and a valid start index,
`traverse_ray` terminates within the 80-step bound, returning a RayHit
with depth = 80 in which at least one of wall/constrained/dark is set and
dark is set exactly when neither wall nor constrained is; wall and
constrained themselves are not mutually exclusive. -/
theorem traverse_ray_flag_partition (mesh : mesh2) (rayo rayd : float4) (start : Int)
    (hWF : WellFormed mesh) (h0 : 0 ≤ start) (h1 : start < (mesh.tetnum : Int)) :
    ∃ d, traverse_ray mesh rayo rayd start = some d ∧ d.depth = 80 ∧
      (d.dark = true ↔ (d.wall = false ∧ d.constrained = false)) := by
  have hfi : flagInv
      { current_tet := start, nexttet := 0, nextface := 0, lastface := 0, hitfound := false, d := { pos := make_float4 0 0 0 0 } } := by
    refine ⟨rfl, ?_, fun _ => ⟨rfl, rfl⟩⟩
    intro h
    simp at h
  obtain ⟨st2, hl, hf2⟩ := traverse_loop_total hWF 80 _ hfi (Or.inr ⟨h0, h1⟩)
  have hd := traverse_loop_depth 80 _ _ hl
  simp at hd
  obtain ⟨hdark, hT, hF⟩ := hf2
  by_cases hh : st2.hitfound = true
  · refine ⟨st2.d, ?_, hd, ?_⟩
    · simp only [traverse_ray]
      rw [hl, Option.some_bind, if_pos hh]
    · constructor
      · intro hcontra
        exact absurd hcontra (by rw [hdark]; simp)
      · rintro ⟨hwf, hcf⟩
        rcases hT hh with hw | hc
        · rw [hwf] at hw
          exact absurd hw (by simp)
        · rw [hcf] at hc
          exact absurd hc (by simp)
  · rw [Bool.not_eq_true] at hh
    obtain ⟨hwf, hcf⟩ := hF hh
    refine ⟨{ st2.d with dark := true, face := st2.nextface, tet := st2.current_tet },
      ?_, hd, ?_⟩
    · simp only [traverse_ray]
      rw [hl, Option.some_bind, if_neg (by simp [hh])]
    · constructor
      · intro _
        exact ⟨hwf, hcf⟩
      · intro _
        rfl

/-- Witness for C5 on the all-wall unit tetrahedron with start index 0. -/
theorem traverse_ray_flag_partition_witness :
    ∃ d, traverse_ray unitTetMeshAllWall rayO rayD 0 = some d ∧ d.depth = 80 ∧
      (d.dark = true ↔ (d.wall = false ∧ d.constrained = false)) :=
  traverse_ray_flag_partition unitTetMeshAllWall rayO rayD 0
    (by decide) (by decide) (by decide)

theorem traverse_until_point_first_hit (mesh : mesh2) (rayo rayd endP : float4)
    (start : Int) (st1 : travState)
    (hbody : traverse_point_body mesh rayo rayd endP
      { current_tet := start, nexttet := 0, nextface := 0, lastface := 0, hitfound := false, d := { pos := make_float4 0 0 0 0 } } = some st1)
    (hhit : st1.hitfound = true) :
    traverse_until_point mesh rayo rayd start endP =
      some { st1.d with depth := st1.d.depth + 80 } := by
  simp only [traverse_until_point]
  have hpeel : traverse_point_loop mesh rayo rayd endP 80
      { current_tet := start, nexttet := 0, nextface := 0, lastface := 0, hitfound := false, d := { pos := make_float4 0 0 0 0 } } =
      (traverse_point_body mesh rayo rayd endP
        { current_tet := start, nexttet := 0, nextface := 0, lastface := 0, hitfound := false, d := { pos := make_float4 0 0 0 0 } }).bind (fun s1 =>
        traverse_point_loop mesh rayo rayd endP 79
          { s1 with d := { s1.d with depth := s1.d.depth + 1 } }) := rfl
  rw [hpeel, hbody, Option.some_bind]
  show (traverse_point_loop mesh rayo rayd endP 79
      { st1 with d := { st1.d with depth := st1.d.depth + 1 } }).bind _ = _
  rw [traverse_point_loop_frozen 79
    { st1 with d := { st1.d with depth := st1.d.depth + 1 } } hhit, Option.some_bind]
  dsimp only
  rw [if_pos hhit]
  have harith : st1.d.depth + 1 + ((79 : Nat) : Int) = st1.d.depth + 80 := by
    push_cast
    ring
  rw [harith]

/-- C4 counterexample: with target (0.15, 0.15, 0.15) inside the start
tetrahedron of the all-wall unit mesh, `traverse_until_point` returns
depth = 80 (not 0) and wall = true (not clear). -/
theorem targetInStart_cex :
    pointInTetAt unitTetMeshAllWall endInside 0 = true ∧
    Option.map rayhit.depth
      (traverse_until_point unitTetMeshAllWall rayO rayD 0 endInside) = some 80 ∧
    Option.map rayhit.wall
      (traverse_until_point unitTetMeshAllWall rayO rayD 0 endInside) = some true := by
  with_unfolding_all decide

/-- C4 (amended): when the target point lies in the start tetrahedron of a
well-formed mesh (valid start index), `traverse_until_point` stops in its
first iteration without hopping: the result has tet = start_tet and
dark = false; but depth is 80 (the loop counter runs to its bound, not 0),
and the wall/constrained flags may additionally be set from the exit face
resolved in that same first iteration. -/
theorem targetInStart_stops_at_start (mesh : mesh2) (rayo rayd endP : float4)
    (start : Int) (hWF : WellFormed mesh) (h0 : 0 ≤ start)
    (h1 : start < (mesh.tetnum : Int))
    (hin : pointInTetAt mesh endP start = true) :
    ∃ d, traverse_until_point mesh rayo rayd start endP = some d ∧
      d.tet = start ∧ d.dark = false ∧ d.depth = 80 := by
  obtain ⟨n0, n1, n2, n3, c, w, nf, nt, hn0, hn1, hn2, hn3, hbody⟩ :=
    @traverse_point_body_eq mesh rayo rayd endP
      { current_tet := start, nexttet := 0, nextface := 0, lastface := 0, hitfound := false, d := { pos := make_float4 0 0 0 0 } }
      hWF rfl h0 h1
  have hn0a : getTetNode mesh mesh.t_nindex1 start = some n0 := hn0
  have hn1a : getTetNode mesh mesh.t_nindex2 start = some n1 := hn1
  have hn2a : getTetNode mesh mesh.t_nindex3 start = some n2 := hn2
  have hn3a : getTetNode mesh mesh.t_nindex4 start = some n3 := hn3
  have hin2 : IsPointInTetrahedron n0 n1 n2 n3 endP = true := by
    simp only [pointInTetAt, hn0a, hn1a, hn2a, hn3a] at hin
    exact hin
  rw [hin2] at hbody
  have hhit : (stepUpdatePoint
      { current_tet := start, nexttet := 0, nextface := 0, lastface := 0, hitfound := false, d := { pos := make_float4 0 0 0 0 } } true c w nf nt).hitfound = true := by
    rw [stepUpdatePoint_hitfound]
    simp
  have hrun := traverse_until_point_first_hit mesh rayo rayd endP start _ hbody hhit
  refine ⟨_, hrun, ?_, ?_, ?_⟩
  · exact stepUpdatePoint_tet _ true c w nf nt (by simp)
  · show (stepUpdatePoint
      { current_tet := start, nexttet := 0, nextface := 0, lastface := 0, hitfound := false, d := { pos := make_float4 0 0 0 0 } } true c w nf nt).d.dark = false
    rw [stepUpdatePoint_dark]
  · show (stepUpdatePoint
      { current_tet := start, nexttet := 0, nextface := 0, lastface := 0, hitfound := false, d := { pos := make_float4 0 0 0 0 } } true c w nf nt).d.depth + 80 = 80
    rw [stepUpdatePoint_depth]
    show (0 : Int) + 80 = 80
    norm_num

/-- Witness for C4 on the all-wall unit tetrahedron with the target
(0.15, 0.15, 0.15) inside the start tetrahedron. -/
theorem targetInStart_stops_at_start_witness :
    ∃ d, traverse_until_point unitTetMeshAllWall rayO rayD 0 endInside = some d ∧
      d.tet = 0 ∧ d.dark = false ∧ d.depth = 80 :=
  targetInStart_stops_at_start unitTetMeshAllWall rayO rayD endInside 0
    (by decide) (by decide) (by decide) (by with_unfolding_all decide)

end TetMesh
